import Mathlib

/-!
Verification of the DeAuthShield detection core.

The detection engine lives in `src/detector.py` (`DeAuthDetector`): it keeps a
sliding window of recent deauthentication-packet timestamps, a set of suspicious
transmitter addresses, cumulative counters, and raises an alert when the window
reaches the configured threshold.  `src/deauth_simulator.py` holds a second,
demonstration-oriented detector (`DeauthDetector`) whose `get_stats` method is
the statistics snapshot.  Both are embedded below: timestamps and durations are
rationals (Python floats are used only for ordinary arithmetic and comparison),
Python ints are `Int`, the MAC-address set is a `Finset String`.
-/

/-- One observed deauthentication frame, as delivered to
`DeAuthDetector.process_packet` in `src/detector.py`: the packet carries its
transmitter address (`pkt.addr2`); the timestamp is the time the engine observes
it (`ts = time.time()` at ingest, which is the event's observation time). -/
structure DeauthEvent where
  timestamp : ℚ
  transmitter_address : String
deriving DecidableEq, Repr

/-- The alert produced by the alert branch of `process_packet`
(`src/detector.py` lines 40-43): the alert message reports
`len(self.packet_times)` in-window packets over `self.time_window` seconds, and
is caused by the packet just processed. -/
structure AlertOutcome where
  window_count : Nat
  time_window : ℚ
  triggering_event : DeauthEvent
deriving DecidableEq, Repr

/-- State of `DeAuthDetector` (`src/detector.py` lines 8-20): configuration
fields plus the mutable session state initialized in `__init__`. The
`log_path`/`console_output` collaborators perform I/O only and carry no
detection state, so they are not part of the embedded state. -/
structure DeAuthDetector where
  interface : String
  threshold : Int
  time_window : ℚ
  packet_times : List ℚ
  suspicious_macs : Finset String
  total_deauth_packets : Nat
  alerts_triggered : Nat
  running : Bool
deriving DecidableEq

namespace DeAuthDetector

/-- Embeds `DeAuthDetector.__init__` (`src/detector.py` lines 8-20): stores the
configuration unchecked and initializes empty window, empty MAC set, zero
counters, `running = True`. -/
def init (interface : String) (threshold : Int) (time_window : ℚ) :
    DeAuthDetector :=
  { interface := interface
    threshold := threshold
    time_window := time_window
    packet_times := []
    suspicious_macs := ∅
    total_deauth_packets := 0
    alerts_triggered := 0
    running := true }

/-- Embeds `DeAuthDetector.process_packet` (`src/detector.py` lines 25-43) on a packet
that has the `Dot11Deauth` layer (the capture collaborator filters the rest):
increment the total counter, append the timestamp, record the transmitter
address, rebuild `packet_times` keeping every `t` with
`ts - t <= time_window`, and when the kept count reaches `threshold` raise an
alert (modelled as the returned `AlertOutcome`; in the source the alert is the
console/log message plus the `alerts_triggered` increment).  The method never
consults `self.running` and never raises. -/
def process_packet (d : DeAuthDetector) (e : DeauthEvent) :
    DeAuthDetector × Option AlertOutcome :=
  let kept := (d.packet_times ++ [e.timestamp]).filter
    (fun t => e.timestamp - t ≤ d.time_window)
  let d' : DeAuthDetector :=
    { d with
      total_deauth_packets := d.total_deauth_packets + 1
      suspicious_macs := insert e.transmitter_address d.suspicious_macs
      packet_times := kept }
  if (kept.length : Int) ≥ d.threshold then
    ({ d' with alerts_triggered := d.alerts_triggered + 1 },
      some { window_count := kept.length
             time_window := d.time_window
             triggering_event := e })
  else
    (d', none)

/-- Stopping the session: `src/detector.py` terminates capture through the
`running` flag read by the `stop_filter` of `run` (line 23); clearing it is the
stop operation (as `DeauthDetector.stop` does in `src/deauth_simulator.py`).
Counters are not cleared. -/
def stop (d : DeAuthDetector) : DeAuthDetector :=
  { d with running := false }

/-- Feed a sequence of events through `process_packet`, keeping the final
state. -/
def processSeq (d : DeAuthDetector) (es : List DeauthEvent) : DeAuthDetector :=
  es.foldl (fun s e => (process_packet s e).1) d

/-- Feed a sequence of events through `process_packet`, collecting the alert
outcome of each call in order. -/
def processTrace (d : DeAuthDetector) : List DeauthEvent → List (Option AlertOutcome)
  | [] => []
  | e :: es => (process_packet d e).2 :: processTrace (process_packet d e).1 es

end DeAuthDetector

/-- Scenario A of the spec: nine events at t = 0, 0.1, ..., 0.8 from nine
distinct transmitter addresses. -/
def scenarioA : List DeauthEvent :=
  [⟨0, "00:01"⟩, ⟨1/10, "00:02"⟩, ⟨2/10, "00:03"⟩, ⟨3/10, "00:04"⟩,
   ⟨4/10, "00:05"⟩, ⟨5/10, "00:06"⟩, ⟨6/10, "00:07"⟩, ⟨7/10, "00:08"⟩,
   ⟨8/10, "00:09"⟩]

/-- Scenario A's tenth event, at t = 0.9. -/
def eventTen : DeauthEvent := ⟨9/10, "00:10"⟩

/-- Scenario B's late event, at t = 6.0, after the 5-second window has fully
expired. -/
def eventLate : DeauthEvent := ⟨6, "00:11"⟩

/-- The statistics counters of the simulator's `DeauthDetector`
(`src/deauth_simulator.py` line 38): the `self.stats` dict
`{"total": 0, "deauth": 0, "alerts": 0, "broadcast": 0}`. -/
structure SimStats where
  total : Nat
  deauth : Nat
  alerts : Nat
  broadcast : Nat
deriving DecidableEq, Repr

/-- Statistics-relevant state of the simulator's `DeauthDetector`
(`src/deauth_simulator.py` lines 31-41): the fields read or written by
`log_packet`, `simulate_attack` and `get_stats`.  The packet history deque,
signals and simulation-timing fields carry no statistics and are omitted. -/
structure SimDetector where
  running : Bool
  interface : String
  stats : SimStats
  start_time : ℚ
deriving DecidableEq

/-- The snapshot returned by `DeauthDetector.get_stats`
(`src/deauth_simulator.py` lines 135-146).  The source formats `uptime` and
`rate` as strings for display; the embedded snapshot holds the numeric values
being formatted. -/
structure SimStatsView where
  uptime : ℚ
  deauth : Nat
  rate : ℚ
  alerts : Nat
  broadcast : Nat
  interface : String
deriving DecidableEq

namespace SimDetector

/-- Embeds the simulator's `DeauthDetector.__init__` (`src/deauth_simulator.py` lines 31-41):
`running = False`, interface `"wlan0"`, all counters zero, `start_time` the
construction time (a parameter here, `time.time()` in the source). -/
def init (start_time : ℚ) : SimDetector :=
  { running := false
    interface := "wlan0"
    stats := { total := 0, deauth := 0, alerts := 0, broadcast := 0 }
    start_time := start_time }

/-- Effect of `DeauthDetector.log_packet` on the statistics
(`src/deauth_simulator.py` lines 128-129): `stats["total"] += 1` and
`stats["deauth"] += 1`, always together. -/
def log_packet (d : SimDetector) : SimDetector :=
  { d with stats := { d.stats with
      total := d.stats.total + 1, deauth := d.stats.deauth + 1 } }

/-- Embeds the `self.stats["broadcast"] += 1` performed for each broadcast attack packet
in `simulate_attack` (`src/deauth_simulator.py` line 80). -/
def mark_broadcast (d : SimDetector) : SimDetector :=
  { d with stats := { d.stats with broadcast := d.stats.broadcast + 1 } }

/-- Embeds the `self.stats["alerts"] += 1` at the end of `simulate_attack`
(`src/deauth_simulator.py` line 102). -/
def mark_alert (d : SimDetector) : SimDetector :=
  { d with stats := { d.stats with alerts := d.stats.alerts + 1 } }

/-- Embeds the `self.running = True` at the start of `DeauthDetector.run`
(`src/deauth_simulator.py` line 44). -/
def set_running (d : SimDetector) : SimDetector :=
  { d with running := true }

/-- Embeds `DeauthDetector.stop` (`src/deauth_simulator.py` lines 148-151):
`self.running = False`; counters are untouched. -/
def stop (d : SimDetector) : SimDetector :=
  { d with running := false }

/-- Embeds `DeauthDetector.get_stats` (`src/deauth_simulator.py` lines 135-146):
`uptime = time.time() - self.start_time`,
`rate = self.stats["deauth"] / uptime if uptime > 0 else 0`, and the snapshot
of the deauth, alert and broadcast counters plus the interface name.  Pure
read: the state is not mutated. -/
def get_stats (d : SimDetector) (now : ℚ) : SimStatsView :=
  let uptime := now - d.start_time
  { uptime := uptime
    deauth := d.stats.deauth
    rate := if uptime > 0 then (d.stats.deauth : ℚ) / uptime else 0
    alerts := d.stats.alerts
    broadcast := d.stats.broadcast
    interface := d.interface }

/-- One state transition of the simulator's detector: the statistics-mutating
actions of `run`/`simulate_attack`/`log_packet`/`stop`
(`src/deauth_simulator.py`). -/
inductive Step : SimDetector → SimDetector → Prop
  | log (d : SimDetector) : Step d (log_packet d)
  | broadcast (d : SimDetector) : Step d (mark_broadcast d)
  | alert (d : SimDetector) : Step d (mark_alert d)
  | start (d : SimDetector) : Step d (set_running d)
  | stop (d : SimDetector) : Step d (stop d)

/-- A state the simulator's detector can actually be in: reachable from a
freshly constructed detector by the statistics-mutating actions. -/
def Reachable (d : SimDetector) : Prop :=
  ∃ t0 : ℚ, Relation.ReflTransGen Step (init t0) d

end SimDetector

namespace DeAuthDetector

/-- Both branches of `process_packet` leave the rebuilt window in
`packet_times`: the filter over the appended list, exactly as on line 39 of
`src/detector.py`. -/
theorem packet_times_process (d : DeAuthDetector) (e : DeauthEvent) :
    (d.process_packet e).1.packet_times =
      (d.packet_times ++ [e.timestamp]).filter
        (fun t => e.timestamp - t ≤ d.time_window) := by
  unfold process_packet
  dsimp only
  split <;> rfl

/-- Each call to `process_packet` increments `total_deauth_packets` by one. -/
theorem total_process (d : DeAuthDetector) (e : DeauthEvent) :
    (d.process_packet e).1.total_deauth_packets = d.total_deauth_packets + 1 := by
  unfold process_packet
  dsimp only
  split <;> rfl

/-- Each call to `process_packet` inserts the transmitter address. -/
theorem macs_process (d : DeAuthDetector) (e : DeauthEvent) :
    (d.process_packet e).1.suspicious_macs =
      insert e.transmitter_address d.suspicious_macs := by
  unfold process_packet
  dsimp only
  split <;> rfl

/-- Processing one packet never changes the configuration or the running flag. -/
theorem config_process (d : DeAuthDetector) (e : DeauthEvent) :
    (d.process_packet e).1.interface = d.interface ∧
    (d.process_packet e).1.threshold = d.threshold ∧
    (d.process_packet e).1.time_window = d.time_window ∧
    (d.process_packet e).1.running = d.running := by
  unfold process_packet
  dsimp only
  split <;> exact ⟨rfl, rfl, rfl, rfl⟩

theorem processSeq_nil (d : DeAuthDetector) : processSeq d [] = d := rfl

theorem processSeq_cons (d : DeAuthDetector) (e : DeauthEvent)
    (es : List DeauthEvent) :
    processSeq d (e :: es) = processSeq (process_packet d e).1 es := rfl

theorem processSeq_append (d : DeAuthDetector) (es fs : List DeauthEvent) :
    processSeq d (es ++ fs) = processSeq (processSeq d es) fs := by
  simp [processSeq, List.foldl_append]

/-- Over a sequence, `total_deauth_packets` grows by exactly the number of
events processed. -/
theorem total_processSeq (d : DeAuthDetector) (es : List DeauthEvent) :
    (processSeq d es).total_deauth_packets =
      d.total_deauth_packets + es.length := by
  induction es generalizing d with
  | nil => simp [processSeq]
  | cons e es ih =>
      rw [processSeq_cons, ih, total_process]
      simp only [List.length_cons]
      omega

/-- Over a sequence, `suspicious_macs` accumulates exactly the transmitter
addresses of the processed events. -/
theorem macs_processSeq (d : DeAuthDetector) (es : List DeauthEvent) :
    (processSeq d es).suspicious_macs =
      d.suspicious_macs ∪ (es.map (fun e => e.transmitter_address)).toFinset := by
  induction es generalizing d with
  | nil => simp [processSeq]
  | cons e es ih =>
      rw [processSeq_cons, ih, macs_process]
      simp [Finset.insert_union, Finset.union_insert]

/-- Processing a sequence never changes the configuration or the running
flag. -/
theorem config_processSeq (d : DeAuthDetector) (es : List DeauthEvent) :
    (processSeq d es).interface = d.interface ∧
    (processSeq d es).threshold = d.threshold ∧
    (processSeq d es).time_window = d.time_window ∧
    (processSeq d es).running = d.running := by
  induction es generalizing d with
  | nil => exact ⟨rfl, rfl, rfl, rfl⟩
  | cons e es ih =>
      rw [processSeq_cons]
      obtain ⟨h1, h2, h3, h4⟩ := ih (d.process_packet e).1
      obtain ⟨g1, g2, g3, g4⟩ := config_process d e
      exact ⟨h1.trans g1, h2.trans g2, h3.trans g3, h4.trans g4⟩

/-- When the window length reaches the threshold, `process_packet` alerts and
increments `alerts_triggered`. -/
theorem alert_process (d : DeAuthDetector) (e : DeauthEvent)
    (h : ((d.packet_times ++ [e.timestamp]).filter
        (fun t => e.timestamp - t ≤ d.time_window)).length ≥ d.threshold) :
    (d.process_packet e).2.isSome = true ∧
    (d.process_packet e).1.alerts_triggered = d.alerts_triggered + 1 := by
  unfold process_packet
  dsimp only
  rw [if_pos h]
  exact ⟨rfl, rfl⟩

/-- When no timestamp is evicted, the window is exactly the old window with
the new timestamp appended. -/
theorem no_eviction (d : DeAuthDetector) (e : DeauthEvent)
    (h : ∀ t ∈ d.packet_times ++ [e.timestamp],
        e.timestamp - t ≤ d.time_window) :
    (d.process_packet e).1.packet_times = d.packet_times ++ [e.timestamp] := by
  rw [packet_times_process]
  rw [List.filter_eq_self.mpr]
  intro a ha
  exact decide_eq_true (h a ha)

/-- One step preserves sortedness of the window and bounds every retained
timestamp by the new event's timestamp, provided the old window was sorted and
bounded by some `c` not after the new event. -/
theorem sorted_process (d : DeAuthDetector) (e : DeauthEvent) (c : ℚ)
    (hs : d.packet_times.Sorted (· ≤ ·))
    (hb : ∀ t ∈ d.packet_times, t ≤ c) (hc : c ≤ e.timestamp) :
    (d.process_packet e).1.packet_times.Sorted (· ≤ ·) ∧
    ∀ t ∈ (d.process_packet e).1.packet_times, t ≤ e.timestamp := by
  rw [packet_times_process]
  have hsortapp : (d.packet_times ++ [e.timestamp]).Sorted (· ≤ ·) := by
    unfold List.Sorted
    rw [List.pairwise_append]
    refine ⟨hs, List.sorted_singleton _, fun a ha b hbmem => ?_⟩
    simp only [List.mem_singleton] at hbmem
    subst hbmem
    exact le_trans (hb a ha) hc
  refine ⟨hsortapp.filter _, fun t ht => ?_⟩
  rcases List.mem_append.mp (List.mem_of_mem_filter ht) with h | h
  · exact le_trans (hb t h) hc
  · simp only [List.mem_singleton] at h
    subst h
    exact le_refl _

/-- Over a monotone sequence of events, the window stays sorted and every
retained timestamp is bounded by the last processed timestamp. -/
theorem sorted_processSeq (d : DeAuthDetector) (c : ℚ) (es : List DeauthEvent)
    (hs : d.packet_times.Sorted (· ≤ ·))
    (hb : ∀ t ∈ d.packet_times, t ≤ c)
    (hchain : (c :: es.map fun x => x.timestamp).Chain' (· ≤ ·)) :
    (processSeq d es).packet_times.Sorted (· ≤ ·) ∧
    ∀ t ∈ (processSeq d es).packet_times,
      t ≤ (es.map fun x => x.timestamp).getLastD c := by
  induction es generalizing d c with
  | nil => exact ⟨hs, hb⟩
  | cons e es ih =>
      simp only [List.map_cons] at hchain
      obtain ⟨h1, h2⟩ := List.chain'_cons.mp hchain
      have hstep := sorted_process d e c hs hb h1
      have hrec := ih (d.process_packet e).1 e.timestamp hstep.1 hstep.2 h2
      rw [processSeq_cons, List.map_cons, List.getLastD_cons]
      exact hrec

end DeAuthDetector

/-- C1: for every engine state and ingested event, after the eviction step
`process_packet` raises an alert if and only if the post-eviction window
length has reached `threshold`; when it alerts, `alerts_triggered` grows by
exactly one and the outcome's `window_count` is the post-eviction window
length, and when it does not, nothing is returned and `alerts_triggered` is
unchanged. -/
theorem C1_alert_iff_threshold (d : DeAuthDetector) (e : DeauthEvent) :
    ((d.process_packet e).2.isSome ↔
      d.threshold ≤ ((d.process_packet e).1.packet_times.length : Int)) ∧
    (∀ a : AlertOutcome, (d.process_packet e).2 = some a →
      (d.process_packet e).1.alerts_triggered = d.alerts_triggered + 1 ∧
      a.window_count = (d.process_packet e).1.packet_times.length) ∧
    ((d.process_packet e).2 = none →
      (d.process_packet e).1.alerts_triggered = d.alerts_triggered) := by
  unfold DeAuthDetector.process_packet
  dsimp only
  split
  · rename_i h
    refine ⟨by simpa using h, ?_, ?_⟩
    · rintro a ha
      cases Option.some.inj ha
      exact ⟨rfl, rfl⟩
    · intro hnone
      simp at hnone
  · rename_i h
    refine ⟨by simpa using h, ?_, fun _ => rfl⟩
    rintro a ha
    simp at ha

/-- Witness for C1: with `threshold = 1` the first event alerts, adding one to
`alerts_triggered`, and the reported `window_count` is the window length. -/
theorem C1_alert_iff_threshold_witness :
    ((DeAuthDetector.init "wlan0" 1 5).process_packet ⟨0, "00:01"⟩).1.alerts_triggered
      = 0 + 1 ∧
    (⟨1, 5, ⟨0, "00:01"⟩⟩ : AlertOutcome).window_count =
      ((DeAuthDetector.init "wlan0" 1 5).process_packet ⟨0, "00:01"⟩).1.packet_times.length :=
  (C1_alert_iff_threshold (DeAuthDetector.init "wlan0" 1 5) ⟨0, "00:01"⟩).2.1
    ⟨1, 5, ⟨0, "00:01"⟩⟩
    (by norm_num [DeAuthDetector.process_packet, DeAuthDetector.init])

/-- C6: after any N ingested events `total_deauth_packets` equals N, whatever
alerts fired, and each single call increments it by exactly one (so it is
never decremented). -/
theorem C6_total_event_count (iface : String) (th : Int) (tw : ℚ)
    (es : List DeauthEvent) :
    (DeAuthDetector.processSeq (DeAuthDetector.init iface th tw) es).total_deauth_packets
      = es.length ∧
    ∀ (d : DeAuthDetector) (e : DeauthEvent),
      (d.process_packet e).1.total_deauth_packets = d.total_deauth_packets + 1 := by
  refine ⟨?_, DeAuthDetector.total_process⟩
  rw [DeAuthDetector.total_processSeq]
  simp [DeAuthDetector.init]

/-- C7: `suspicious_macs` is exactly the set of distinct transmitter addresses
of the ingested events, its size is the number of distinct addresses, and it
is invariant under reordering and repetition of the address sequence. -/
theorem C7_distinct_addresses (iface : String) (th : Int) (tw : ℚ)
    (es : List DeauthEvent) :
    (DeAuthDetector.processSeq (DeAuthDetector.init iface th tw) es).suspicious_macs
      = (es.map (fun e => e.transmitter_address)).toFinset ∧
    (DeAuthDetector.processSeq (DeAuthDetector.init iface th tw) es).suspicious_macs.card
      = (es.map (fun e => e.transmitter_address)).dedup.length ∧
    ∀ fs : List DeauthEvent,
      (es.map (fun e => e.transmitter_address)).Perm
        (fs.map (fun e => e.transmitter_address)) →
      (DeAuthDetector.processSeq (DeAuthDetector.init iface th tw) es).suspicious_macs
        = (DeAuthDetector.processSeq (DeAuthDetector.init iface th tw) fs).suspicious_macs := by
  have h : ∀ gs : List DeauthEvent,
      (DeAuthDetector.processSeq (DeAuthDetector.init iface th tw) gs).suspicious_macs
        = (gs.map (fun e => e.transmitter_address)).toFinset := by
    intro gs
    rw [DeAuthDetector.macs_processSeq]
    simp [DeAuthDetector.init]
  refine ⟨h es, ?_, ?_⟩
  · rw [h es, List.card_toFinset]
  · intro fs hperm
    rw [h es, h fs, List.toFinset_eq_of_perm _ _ hperm]

/-- Witness for C7: two sequences with the same addresses in different order
and multiplicity give the same suspicious-address set. -/
theorem C7_distinct_addresses_witness :
    (DeAuthDetector.processSeq (DeAuthDetector.init "wlan0" 10 5)
        [⟨0, "00:0a"⟩, ⟨1, "00:0b"⟩, ⟨2, "00:0a"⟩]).suspicious_macs
      = (DeAuthDetector.processSeq (DeAuthDetector.init "wlan0" 10 5)
        [⟨5, "00:0b"⟩, ⟨6, "00:0a"⟩, ⟨7, "00:0a"⟩]).suspicious_macs :=
  (C7_distinct_addresses "wlan0" 10 5 [⟨0, "00:0a"⟩, ⟨1, "00:0b"⟩, ⟨2, "00:0a"⟩]).2.2
    [⟨5, "00:0b"⟩, ⟨6, "00:0a"⟩, ⟨7, "00:0a"⟩] (by decide)


/-- Inside a single window-length interval no timestamp is ever evicted: the
window length grows by one per event and every retained timestamp stays at or
after the interval start. -/
theorem DeAuthDetector.inwindow_processSeq (d : DeAuthDetector) (t0 : ℚ)
    (es : List DeauthEvent)
    (hpt : ∀ t ∈ d.packet_times, t0 ≤ t)
    (hes : ∀ x ∈ es, t0 ≤ x.timestamp ∧ x.timestamp < t0 + d.time_window) :
    (DeAuthDetector.processSeq d es).packet_times.length
        = d.packet_times.length + es.length ∧
    ∀ t ∈ (DeAuthDetector.processSeq d es).packet_times, t0 ≤ t := by
  induction es generalizing d with
  | nil => exact ⟨by simp [DeAuthDetector.processSeq], hpt⟩
  | cons e es ih =>
      obtain ⟨he1, he2⟩ := hes e (List.mem_cons_self e es)
      have hkeep : ∀ t ∈ d.packet_times ++ [e.timestamp],
          e.timestamp - t ≤ d.time_window := by
        intro t ht
        rcases List.mem_append.mp ht with h | h
        · have := hpt t h
          linarith
        · simp only [List.mem_singleton] at h
          subst h
          linarith
      have hpt2 := DeAuthDetector.no_eviction d e hkeep
      have htw : (d.process_packet e).1.time_window = d.time_window :=
        (DeAuthDetector.config_process d e).2.2.1
      have hrec := ih (d.process_packet e).1
        (by
          rw [hpt2]
          intro t ht
          rcases List.mem_append.mp ht with h | h
          · exact hpt t h
          · simp only [List.mem_singleton] at h
            subst h
            exact he1)
        (by
          rw [htw]
          exact fun x hx => hes x (List.mem_cons_of_mem e hx))
      rw [DeAuthDetector.processSeq_cons]
      refine ⟨?_, hrec.2⟩
      rw [hrec.1, hpt2]
      simp only [List.length_append, List.length_cons, List.length_nil]
      omega

/-- C2: over any sequence of events with non-decreasing timestamps, after each
ingest every retained timestamp is within `time_window` of the latest event's
timestamp, the window stays sorted ascending, and the eviction that produced
it is a function of the latest event's timestamp alone (the filter on line 39
of `src/detector.py`), not of any separate wall clock. -/
theorem C2_window_invariant (iface : String) (th : Int) (tw : ℚ)
    (es : List DeauthEvent) (e : DeauthEvent)
    (hchain : ((es ++ [e]).map (fun x => x.timestamp)).Chain' (· ≤ ·)) :
    (DeAuthDetector.processSeq (DeAuthDetector.init iface th tw)
        (es ++ [e])).packet_times.Sorted (· ≤ ·) ∧
    (∀ t ∈ (DeAuthDetector.processSeq (DeAuthDetector.init iface th tw)
        (es ++ [e])).packet_times, e.timestamp - t ≤ tw) ∧
    (DeAuthDetector.processSeq (DeAuthDetector.init iface th tw)
        (es ++ [e])).packet_times =
      ((DeAuthDetector.processSeq (DeAuthDetector.init iface th tw)
          es).packet_times ++ [e.timestamp]).filter
        (fun t => e.timestamp - t ≤ tw) := by
  have hchain2 : ((((es ++ [e]).map fun x => x.timestamp).headD 0) ::
      ((es ++ [e]).map fun x => x.timestamp)).Chain' (· ≤ ·) := by
    refine hchain.cons' ?_
    intro y hy
    cases hml : ((es ++ [e]).map fun x => x.timestamp) with
    | nil => rw [hml] at hy; cases hy
    | cons a l =>
        rw [hml] at hy
        simp only [List.head?_cons, Option.mem_def, Option.some.injEq] at hy
        subst hy
        exact le_refl _
  have hsorted := DeAuthDetector.sorted_processSeq
      (DeAuthDetector.init iface th tw) _ (es ++ [e])
      List.sorted_nil (by intro t ht; cases ht) hchain2
  have htw : (DeAuthDetector.processSeq (DeAuthDetector.init iface th tw)
      es).time_window = tw :=
    (DeAuthDetector.config_processSeq (DeAuthDetector.init iface th tw) es).2.2.1
  have hfilter : (DeAuthDetector.processSeq (DeAuthDetector.init iface th tw)
      (es ++ [e])).packet_times =
      ((DeAuthDetector.processSeq (DeAuthDetector.init iface th tw)
          es).packet_times ++ [e.timestamp]).filter
        (fun t => e.timestamp - t ≤ tw) := by
    rw [DeAuthDetector.processSeq_append]
    rw [show DeAuthDetector.processSeq
        (DeAuthDetector.processSeq (DeAuthDetector.init iface th tw) es) [e] =
        ((DeAuthDetector.processSeq (DeAuthDetector.init iface th tw)
          es).process_packet e).1 from rfl]
    rw [DeAuthDetector.packet_times_process, htw]
  refine ⟨hsorted.1, ?_, hfilter⟩
  intro t ht
  rw [hfilter] at ht
  exact of_decide_eq_true (List.mem_filter.mp ht).2

/-- Witness for C2: a concrete monotone two-event run leaves a sorted
window. -/
theorem C2_window_invariant_witness :
    (DeAuthDetector.processSeq (DeAuthDetector.init "wlan0" 10 5)
        ([⟨0, "00:01"⟩] ++ [⟨1, "00:02"⟩])).packet_times.Sorted (· ≤ ·) :=
  (C2_window_invariant "wlan0" 10 5 [⟨0, "00:01"⟩] ⟨1, "00:02"⟩
    (by norm_num [List.chain'_cons, List.chain'_singleton])).1

/-- C5: with all timestamps strictly inside `[t0, t0 + W)`, as soon as the
number of ingested events reaches the threshold, the next ingest (still in the
interval) raises an alert and `alerts_triggered` grows by exactly one — the
alert re-fires on every such event, with no edge-triggering or
de-duplication. -/
theorem C5_refire (iface : String) (th : Int) (W t0 : ℚ)
    (es : List DeauthEvent) (e : DeauthEvent)
    (hes : ∀ x ∈ es, t0 ≤ x.timestamp ∧ x.timestamp < t0 + W)
    (he : t0 ≤ e.timestamp ∧ e.timestamp < t0 + W)
    (hth : th ≤ (es.length : Int) + 1) :
    ((DeAuthDetector.processSeq (DeAuthDetector.init iface th W)
        es).process_packet e).2.isSome = true ∧
    ((DeAuthDetector.processSeq (DeAuthDetector.init iface th W)
        es).process_packet e).1.alerts_triggered =
      (DeAuthDetector.processSeq (DeAuthDetector.init iface th W)
        es).alerts_triggered + 1 := by
  have htw : (DeAuthDetector.processSeq (DeAuthDetector.init iface th W)
      es).time_window = W :=
    (DeAuthDetector.config_processSeq (DeAuthDetector.init iface th W) es).2.2.1
  have hth1 : (DeAuthDetector.processSeq (DeAuthDetector.init iface th W)
      es).threshold = th :=
    (DeAuthDetector.config_processSeq (DeAuthDetector.init iface th W) es).2.1
  have hwin := DeAuthDetector.inwindow_processSeq
      (DeAuthDetector.init iface th W) t0 es
      (by intro t ht; simp [DeAuthDetector.init] at ht) hes
  apply DeAuthDetector.alert_process
  have hkeep : ∀ t ∈ (DeAuthDetector.processSeq (DeAuthDetector.init iface th W)
      es).packet_times ++ [e.timestamp],
      e.timestamp - t ≤ (DeAuthDetector.processSeq (DeAuthDetector.init iface th W)
        es).time_window := by
    rw [htw]
    intro t ht
    rcases List.mem_append.mp ht with h | h
    · have := hwin.2 t h
      linarith [he.1, he.2]
    · simp only [List.mem_singleton] at h
      subst h
      linarith [he.1, he.2]
  rw [List.filter_eq_self.mpr (fun a ha => decide_eq_true (hkeep a ha))]
  rw [hth1, List.length_append, hwin.1]
  simp only [DeAuthDetector.init, List.length_singleton]
  push_cast
  omega

/-- Witness for C5: with threshold 2 and window 5, the second in-window event
alerts and bumps the alert counter. -/
theorem C5_refire_witness :
    ((DeAuthDetector.processSeq (DeAuthDetector.init "wlan0" 2 5)
        [⟨0, "00:01"⟩]).process_packet ⟨1, "00:02"⟩).2.isSome = true ∧
    ((DeAuthDetector.processSeq (DeAuthDetector.init "wlan0" 2 5)
        [⟨0, "00:01"⟩]).process_packet ⟨1, "00:02"⟩).1.alerts_triggered =
      (DeAuthDetector.processSeq (DeAuthDetector.init "wlan0" 2 5)
        [⟨0, "00:01"⟩]).alerts_triggered + 1 :=
  C5_refire "wlan0" 2 5 0 [⟨0, "00:01"⟩] ⟨1, "00:02"⟩
    (by
      intro x hx
      simp only [List.mem_singleton] at hx
      subst hx
      norm_num)
    (by norm_num) (by norm_num)

set_option maxHeartbeats 1000000

/-- C9: Scenario A — with threshold 10 and a 5-second window, the nine events
at t = 0, 0.1, ..., 0.8 from nine distinct addresses produce no alert, and the
tenth event at t = 0.9 returns an alert with `window_count = 10`; Scenario B —
a further event at t = 6.0 leaves the window holding only the timestamp 6 and
produces no alert. -/
theorem C9_scenario_A_B :
    DeAuthDetector.processTrace (DeAuthDetector.init "wlan0" 10 5) scenarioA =
      List.replicate 9 none ∧
    ((DeAuthDetector.processSeq (DeAuthDetector.init "wlan0" 10 5)
        scenarioA).process_packet eventTen).2 = some ⟨10, 5, eventTen⟩ ∧
    ((DeAuthDetector.processSeq (DeAuthDetector.init "wlan0" 10 5)
        (scenarioA ++ [eventTen])).process_packet eventLate).1.packet_times = [6] ∧
    ((DeAuthDetector.processSeq (DeAuthDetector.init "wlan0" 10 5)
        (scenarioA ++ [eventTen])).process_packet eventLate).2 = none := by
  norm_num [DeAuthDetector.processTrace, DeAuthDetector.processSeq,
    DeAuthDetector.process_packet, DeAuthDetector.init, scenarioA, eventTen,
    eventLate, List.filter, List.replicate]

/-- C10: with a non-negative window, the just-ingested timestamp always
survives eviction — it is the last element of the non-empty post-ingest
window — so every event counts toward its own window, and with threshold 1
every ingest alerts. -/
theorem C10_own_event_counts (d : DeAuthDetector) (e : DeauthEvent)
    (hW : 0 ≤ d.time_window) :
    (d.process_packet e).1.packet_times ≠ [] ∧
    (d.process_packet e).1.packet_times.getLast? = some e.timestamp ∧
    (d.threshold = 1 → (d.process_packet e).2.isSome = true) := by
  have hkeep : decide (e.timestamp - e.timestamp ≤ d.time_window) = true := by
    simp only [decide_eq_true_eq]
    linarith
  have hpt : (d.process_packet e).1.packet_times =
      d.packet_times.filter (fun t => e.timestamp - t ≤ d.time_window)
        ++ [e.timestamp] := by
    rw [DeAuthDetector.packet_times_process, List.filter_append]
    simp [hkeep]
    exact hW
  refine ⟨?_, ?_, ?_⟩
  · rw [hpt]
    simp
  · rw [hpt]
    exact List.getLast?_concat _
  · intro hth
    refine (DeAuthDetector.alert_process d e ?_).1
    rw [hth]
    have hmem : e.timestamp ∈ (d.packet_times ++ [e.timestamp]).filter
        (fun t => e.timestamp - t ≤ d.time_window) :=
      List.mem_filter.mpr
        ⟨List.mem_append_right _ (List.mem_singleton_self _), hkeep⟩
    have hlen := List.length_pos_of_mem hmem
    exact_mod_cast hlen

/-- Witness for C10: with window 5 and threshold 1, ingesting one event leaves
its timestamp last in the window and raises an alert. -/
theorem C10_own_event_counts_witness :
    ((DeAuthDetector.init "wlan0" 1 5).process_packet
        ⟨2, "00:03"⟩).1.packet_times.getLast? = some 2 ∧
    ((DeAuthDetector.init "wlan0" 1 5).process_packet ⟨2, "00:03"⟩).2.isSome
      = true := by
  have h := C10_own_event_counts (DeAuthDetector.init "wlan0" 1 5) ⟨2, "00:03"⟩
    (by norm_num [DeAuthDetector.init])
  exact ⟨h.2.1, h.2.2 rfl⟩

/-- Counterexample to C3: `DeAuthDetector.__init__` performs no validation.
Constructing with `threshold = 0` does not fail with `InvalidConfiguration`:
it produces a fully initialized engine (configuration stored, fresh state,
running), and that engine even processes events — its first ingest raises an
alert. -/
theorem C3_counterexample :
    (DeAuthDetector.init "wlan0" 0 5).threshold = 0 ∧
    (DeAuthDetector.init "wlan0" 0 5).running = true ∧
    (DeAuthDetector.init "wlan0" 0 5).packet_times = [] ∧
    ((DeAuthDetector.init "wlan0" 0 5).process_packet
        ⟨0, "00:01"⟩).1.total_deauth_packets = 1 ∧
    ((DeAuthDetector.init "wlan0" 0 5).process_packet ⟨0, "00:01"⟩).2.isSome
      = true := by
  norm_num [DeAuthDetector.init, DeAuthDetector.process_packet]

/-- C3 amended: construction never fails and performs no validation — for
every `threshold` and `time_window`, including non-positive ones, an engine is
produced holding the given configuration with empty window, empty address set,
zero counters and `running = true`; an engine whose threshold is non-positive
is functional and alerts on every ingested event. -/
theorem C3_amended_no_validation (iface : String) (th : Int) (tw : ℚ) :
    (DeAuthDetector.init iface th tw).interface = iface ∧
    (DeAuthDetector.init iface th tw).threshold = th ∧
    (DeAuthDetector.init iface th tw).time_window = tw ∧
    (DeAuthDetector.init iface th tw).packet_times = [] ∧
    (DeAuthDetector.init iface th tw).suspicious_macs = ∅ ∧
    (DeAuthDetector.init iface th tw).total_deauth_packets = 0 ∧
    (DeAuthDetector.init iface th tw).alerts_triggered = 0 ∧
    (DeAuthDetector.init iface th tw).running = true ∧
    (th ≤ 0 → ∀ (d : DeAuthDetector) (e : DeauthEvent), d.threshold = th →
      (d.process_packet e).2.isSome = true) := by
  refine ⟨rfl, rfl, rfl, rfl, rfl, rfl, rfl, rfl, ?_⟩
  intro hth d e hd
  refine (DeAuthDetector.alert_process d e ?_).1
  rw [hd]
  have : (0 : Int) ≤ (((d.packet_times ++ [e.timestamp]).filter
      (fun t => e.timestamp - t ≤ d.time_window)).length : Int) := Int.ofNat_nonneg _
  omega

/-- Witness for C3 amended: an engine built with threshold −2 alerts on its
first event. -/
theorem C3_amended_no_validation_witness :
    ((DeAuthDetector.init "wlan0" (-2) 5).process_packet ⟨0, "00:02"⟩).2.isSome
      = true :=
  (C3_amended_no_validation "wlan0" (-2) 5).2.2.2.2.2.2.2.2 (by norm_num)
    (DeAuthDetector.init "wlan0" (-2) 5) ⟨0, "00:02"⟩ rfl

/-- Counterexample to C4: ingesting after the session is stopped does not fail
with `SessionClosed` and does not leave the state unchanged — on a stopped
engine `process_packet` still increments `total_deauth_packets` and appends to
the window, exactly as when running (`process_packet` never reads `running`). -/
theorem C4_counterexample :
    ((DeAuthDetector.init "wlan0" 10 5).stop.process_packet
        ⟨0, "00:01"⟩).1.total_deauth_packets = 1 ∧
    (DeAuthDetector.init "wlan0" 10 5).stop.total_deauth_packets = 0 ∧
    ((DeAuthDetector.init "wlan0" 10 5).stop.process_packet
        ⟨0, "00:01"⟩).1.packet_times = [0] ∧
    (DeAuthDetector.init "wlan0" 10 5).stop.packet_times = [] := by
  norm_num [DeAuthDetector.init, DeAuthDetector.stop,
    DeAuthDetector.process_packet]

/-- C4 amended: `process_packet` never consults the `running` flag, so ingest
after `stop()` is processed exactly as before stopping — same state mutation
(modulo the already-cleared flag) and the same outcome; no `SessionClosed`
failure exists (stopping only makes the capture loop stop delivering
packets). -/
theorem C4_amended_ingest_ignores_stop (d : DeAuthDetector) (e : DeauthEvent) :
    (d.stop.process_packet e).1 = ((d.process_packet e).1).stop ∧
    (d.stop.process_packet e).2 = (d.process_packet e).2 := by
  unfold DeAuthDetector.process_packet DeAuthDetector.stop
  dsimp only
  by_cases h : ((((d.packet_times ++ [e.timestamp]).filter
      (fun t => e.timestamp - t ≤ d.time_window)).length : Int) ≥ d.threshold)
  · rw [if_pos h, if_pos h]
    exact ⟨rfl, rfl⟩
  · rw [if_neg h, if_neg h]
    exact ⟨rfl, rfl⟩

/-- In every reachable simulator state the `deauth` and `total` counters are
equal: `log_packet` is the only action touching either, and it increments both
together. -/
theorem SimDetector.deauth_eq_total_of_reachable (d : SimDetector)
    (h : SimDetector.Reachable d) : d.stats.deauth = d.stats.total := by
  obtain ⟨t0, hsteps⟩ := h
  induction hsteps with
  | refl => rfl
  | tail hab hstep ih =>
      cases hstep with
      | log =>
          simp only [SimDetector.log_packet]
          omega
      | broadcast => exact ih
      | alert => exact ih
      | start => exact ih
      | stop => exact ih

/-- Counterexample to C8: the claim quantifies over every engine state, but
`get_stats` divides the `deauth` counter — not the `total` counter — by the
uptime, so on a state whose `total` and `deauth` counters differ the returned
rate is not `total / uptime`. -/
theorem C8_counterexample :
    ¬ ((SimDetector.get_stats ⟨true, "wlan0", ⟨2, 1, 0, 0⟩, 0⟩ 1).rate =
      ((⟨true, "wlan0", ⟨2, 1, 0, 0⟩, 0⟩ : SimDetector).stats.total : ℚ) /
        (SimDetector.get_stats ⟨true, "wlan0", ⟨2, 1, 0, 0⟩, 0⟩ 1).uptime) := by
  norm_num [SimDetector.get_stats]

/-- C8 amended: on every reachable simulator state (where the deauth and total
counters agree) `get_stats` is a pure read returning uptime `now − start`, the
total/deauth event count, rate `total / uptime` (`0` when the uptime is zero
or negative), the alert counter and the broadcast counter; the snapshot
contains no count of suspicious addresses, since the simulator tracks none. -/
theorem C8_statistics_snapshot (d : SimDetector)
    (h : SimDetector.Reachable d) (now : ℚ) :
    (d.get_stats now).uptime = now - d.start_time ∧
    (d.get_stats now).deauth = d.stats.total ∧
    (d.get_stats now).rate = (if 0 < now - d.start_time
        then (d.stats.total : ℚ) / (now - d.start_time) else 0) ∧
    (d.get_stats now).alerts = d.stats.alerts ∧
    (d.get_stats now).broadcast = d.stats.broadcast := by
  have hdt := SimDetector.deauth_eq_total_of_reachable d h
  unfold SimDetector.get_stats
  dsimp only
  rw [hdt]
  exact ⟨rfl, rfl, rfl, rfl, rfl⟩

/-- Witness for C8 amended: after two logged packets the snapshot's deauth
count equals the total counter. -/
theorem C8_statistics_snapshot_witness :
    ((SimDetector.init 0).log_packet.log_packet.get_stats 2).deauth =
      ((SimDetector.init 0).log_packet.log_packet).stats.total :=
  (C8_statistics_snapshot ((SimDetector.init 0).log_packet.log_packet)
    ⟨0, Relation.ReflTransGen.tail
      (Relation.ReflTransGen.tail Relation.ReflTransGen.refl
        (SimDetector.Step.log _)) (SimDetector.Step.log _)⟩ 2).2.1
